import Mathlib

/-!
A shallow embedding of the TelemetryRelay plugin
(`assetto-corsa-apps/TelemetryRelay/app.py`).

Python floats are modelled as rationals (`ℚ`), values that may be `None` as
`Option`, and host calls that may raise as `Except String` results supplied by
an `Env` describing one tick's host behaviour.  The module-level mutable state
(`_last_send`, `_label`) is an explicit `St` record threaded through the tick
handler; the observable effect of a tick is the list of datagrams sent
(zero or one `Payload` records).
-/

set_option maxRecDepth 16000

namespace TelemetryRelay

def APP_NAME : String := "TelemetryRelay"

def UDP_HOST : String := "127.0.0.1"

def UDP_PORT : Nat := 41234

/-- `SEND_INTERVAL = 0.1` seconds. -/
def SEND_INTERVAL : ℚ := 0.1

/-- Python `int(x)` on a number: truncation toward zero. -/
def pyInt (q : ℚ) : ℤ := q.num.tdiv (q.den : ℤ)

/-- Rounding to the nearest integer, ties to even — the rounding used by
`%f`-style fixed-point formatting. -/
def roundHalfEven (q : ℚ) : ℤ :=
  let n := ⌊q⌋
  let r := q - (n : ℚ)
  if r < 1 / 2 then n
  else if (1 / 2 : ℚ) < r then n + 1
  else if n % 2 = 0 then n else n + 1

/-- Left-pad a string with `'0'` up to width `w`. -/
def padZeros (w : ℕ) (s : String) : String :=
  String.mk (List.replicate (w - s.length) '0') ++ s

/-- Python `"%0W.Pf" % q` for a non-negative `q`: the value rounded to `prec`
decimal places, zero-padded to a minimum total width `width`. -/
def formatFixed (width prec : ℕ) (q : ℚ) : String :=
  let scaled := roundHalfEven (q * (10 : ℚ) ^ prec)
  let n := scaled.toNat
  let ip := n / 10 ^ prec
  let fp := n % 10 ^ prec
  padZeros width (toString ip ++ "." ++ padZeros prec (toString fp))

/-- `_format_lap_time(seconds)`: `""` for `None` or non-positive input,
otherwise `"%d:%06.3f" % (minutes, remainder)` with
`minutes = int(seconds // 60)` and `remainder = seconds - minutes * 60`. -/
def _format_lap_time (seconds : Option ℚ) : String :=
  match seconds with
  | none => ""
  | some s =>
    if s ≤ 0 then ""
    else
      let minutes : ℤ := ⌊s / 60⌋
      toString minutes ++ ":" ++ formatFixed 6 3 (s - (minutes : ℚ) * 60)

/-- The host behaviour visible to one invocation of `acUpdate`: the clock
reading `time.time()`, the result of each host accessor call (which may
raise), and whether JSON serialization and the UDP send raise. -/
structure Env where
  now : ℚ
  trackName : Except String String
  driverName : Except String String
  carName : Except String String
  speed : Except String (Option ℚ)
  throttle : Except String (Option ℚ)
  brake : Except String (Option ℚ)
  lap : Except String (Option ℚ)
  lastLap : Except String (Option ℚ)
  worldPosition : Except String (List ℚ)
  serializeErr : Option String
  sendErr : Option String

/-- The module-level mutable state: `_last_send` and the text of the status
label `_label` (`none` before `acMain` creates it). -/
structure St where
  lastSend : ℚ
  label : Option String
deriving DecidableEq, Repr

/-- The flat record serialized and sent as one UDP datagram. -/
structure Payload where
  track : String
  driver : String
  car : String
  lap : ℤ
  lastLap : String
  delta : String
  speed : ℤ
  throttle : ℤ
  brake : ℤ
  x : ℚ
  y : ℚ
deriving DecidableEq, Repr

/-- `_get_track_name()`: the accessor wrapped in `try/except`, defaulting to
`""`. -/
def _get_track_name (e : Env) : String :=
  match e.trackName with
  | .ok s => s
  | .error _ => ""

/-- `_get_driver_name()`: the accessor wrapped in `try/except`, defaulting to
`""`. -/
def _get_driver_name (e : Env) : String :=
  match e.driverName with
  | .ok s => s
  | .error _ => ""

/-- `_get_car_name()`: the accessor wrapped in `try/except`, defaulting to
`""`. -/
def _get_car_name (e : Env) : String :=
  match e.carName with
  | .ok s => s
  | .error _ => ""

/-- Python `str.lower()` (ASCII range, which covers every track name the host
produces): each character mapped to its lower-case form. -/
def strLower (s : String) : String := String.mk (s.data.map Char.toLower)

/-- Python `x or 0` for an optional number: `None` and `0` are falsy. -/
def pyOrZero (v : Option ℚ) : ℚ :=
  match v with
  | none => 0
  | some x => if x = 0 then 0 else x

/-- `int((v or 0) * 100)`: the throttle/brake percentage derivation. -/
def pct (v : Option ℚ) : ℤ := pyInt (pyOrZero v * 100)

/-- `int(v) if v is not None else 0`: the lap/speed derivation. -/
def pyIntOpt (v : Option ℚ) : ℤ :=
  match v with
  | none => 0
  | some q => pyInt q

/-- The body of the `try:` block of `acUpdate`: the six `ac.getCarState`
reads (each may raise), the position projection, the payload construction
(name accessors are the wrapped, non-raising getters), then serialization and
the UDP send (each may raise).  The result is the datagram's record. -/
def tryBlock (e : Env) : Except String Payload := do
  let speed ← e.speed
  let throttle ← e.throttle
  let brake ← e.brake
  let lap ← e.lap
  let last_lap ← e.lastLap
  let pos ← e.worldPosition
  let x : ℚ := if pos.length > 0 then pos.getD 0 0 else 0
  let y : ℚ := if pos.length > 2 then pos.getD 2 0 else 0
  let payload : Payload :=
    { track := strLower (_get_track_name e)
      driver := _get_driver_name e
      car := _get_car_name e
      lap := pyIntOpt lap
      lastLap := _format_lap_time last_lap
      delta := ""
      speed := pyIntOpt speed
      throttle := pct throttle
      brake := pct brake
      x := x
      y := y }
  match e.serializeErr with
  | some msg => throw msg
  | none => pure ()
  match e.sendErr with
  | some msg => throw msg
  | none => pure ()
  pure payload

/-- `acUpdate(delta_t)` exactly as it presents itself to the host call site:
an `Except`-valued computation, where `.error` would mean an exception
propagating to the host.  Returns the new module state and the list of
datagrams sent this tick. -/
def acUpdateHost (e : Env) (st : St) : Except String (St × List Payload) :=
  if e.now - st.lastSend < SEND_INTERVAL then
    .ok (st, [])
  else
    let st1 : St := { st with lastSend := e.now }
    match tryBlock e with
    | .ok p => .ok (st1, [p])
    | .error err =>
      .ok ({ st1 with label := st1.label.map fun _ => "Telemetry error: " ++ err }, [])

/-- The tick handler as a state transformer (it never raises,
see the `C1` theorem). -/
def stepRun (e : Env) (st : St) : St × List Payload :=
  match acUpdateHost e st with
  | .ok r => r
  | .error _ => (st, [])

/-- Clock readings of the ticks whose datagram was actually sent, over a
sequence of tick invocations starting from state `st`. -/
def sendTimes (st : St) : List Env → List ℚ
  | [] => []
  | e :: es =>
    let r := stepRun e st
    (if r.2.isEmpty then [] else [e.now]) ++ sendTimes r.1 es

/-- A tick's host behaviour in which every host call succeeds, bundled from
plain values. -/
structure Vals where
  now : ℚ
  track : String
  driver : String
  car : String
  speed : Option ℚ
  throttle : Option ℚ
  brake : Option ℚ
  lap : Option ℚ
  lastLap : Option ℚ
  pos : List ℚ

/-- The all-successful environment built from `Vals`. -/
def okEnv (v : Vals) : Env :=
  { now := v.now
    trackName := .ok v.track
    driverName := .ok v.driver
    carName := .ok v.car
    speed := .ok v.speed
    throttle := .ok v.throttle
    brake := .ok v.brake
    lap := .ok v.lap
    lastLap := .ok v.lastLap
    worldPosition := .ok v.pos
    serializeErr := none
    sendErr := none }

/-- The record a fully successful publish of `Vals` emits. -/
def payloadOf (v : Vals) : Payload :=
  { track := strLower v.track
    driver := v.driver
    car := v.car
    lap := pyIntOpt v.lap
    lastLap := _format_lap_time v.lastLap
    delta := ""
    speed := pyIntOpt v.speed
    throttle := pct v.throttle
    brake := pct v.brake
    x := if v.pos.length > 0 then v.pos.getD 0 0 else 0
    y := if v.pos.length > 2 then v.pos.getD 2 0 else 0 }

/-- The module state right after `acMain`: `_last_send = 0.0` and the label
created with its initial text. -/
def st0 : St :=
  { lastSend := 0
    label := some ("Sending telemetry to " ++ UDP_HOST ++ ":" ++ toString UDP_PORT) }

/-- The end-to-end scenario input of the spec (speed 210.7, throttle 0.8,
brake 0.0, lap 3, lastLap 91.123, position `[10.0, 0.0, 20.0]`) read at
clock time 1. -/
def vC6 : Vals :=
  { now := 1
    track := "Monza"
    driver := "Ayrton"
    car := "F1_2020"
    speed := some 210.7
    throttle := some 0.8
    brake := some 0.0
    lap := some 3
    lastLap := some 91.123
    pos := [10, 0, 20] }

/-! ### Helper lemmas -/

theorem tryBlock_okEnv (v : Vals) : tryBlock (okEnv v) = .ok (payloadOf v) := rfl

theorem acUpdateHost_ok_of (e : Env) (st : St) (p : Payload)
    (hn : SEND_INTERVAL ≤ e.now - st.lastSend) (htb : tryBlock e = .ok p) :
    acUpdateHost e st = .ok ({ st with lastSend := e.now }, [p]) := by
  simp [acUpdateHost, not_lt.2 hn, htb]

theorem publish_ok (v : Vals) (st : St) (h : SEND_INTERVAL ≤ v.now - st.lastSend) :
    acUpdateHost (okEnv v) st = .ok ({ st with lastSend := v.now }, [payloadOf v]) :=
  acUpdateHost_ok_of (okEnv v) st (payloadOf v) h (tryBlock_okEnv v)

theorem stepRun_eq (e : Env) (st : St) (r : St × List Payload)
    (h : acUpdateHost e st = .ok r) : stepRun e st = r := by
  simp [stepRun, h]

theorem SEND_INTERVAL_pos : (0 : ℚ) < SEND_INTERVAL := by
  rw [show SEND_INTERVAL = 1 / 10 from by with_unfolding_all decide]
  norm_num

theorem lastSend_mono (e : Env) (st : St) : st.lastSend ≤ (stepRun e st).1.lastSend := by
  unfold stepRun acUpdateHost
  by_cases h : e.now - st.lastSend < SEND_INTERVAL
  · simp [h]
  · have h1 : SEND_INTERVAL ≤ e.now - st.lastSend := not_lt.1 h
    have h2 : st.lastSend ≤ e.now := by
      have := SEND_INTERVAL_pos
      linarith
    cases htb : tryBlock e <;> simp [h, htb, h2]

theorem stepRun_sent (e : Env) (st : St) (h : (stepRun e st).2 ≠ []) :
    st.lastSend + SEND_INTERVAL ≤ e.now ∧ (stepRun e st).1.lastSend = e.now := by
  by_cases hlt : e.now - st.lastSend < SEND_INTERVAL
  · exfalso
    apply h
    simp [stepRun, acUpdateHost, hlt]
  · have h1 : SEND_INTERVAL ≤ e.now - st.lastSend := not_lt.1 hlt
    refine ⟨by linarith, ?_⟩
    unfold stepRun acUpdateHost
    cases htb : tryBlock e <;> simp [hlt, htb]

theorem sendTimes_lb (es : List Env) :
    ∀ st t, t ∈ sendTimes st es → st.lastSend + SEND_INTERVAL ≤ t := by
  induction es with
  | nil =>
    intro st t ht
    simp [sendTimes] at ht
  | cons e es ih =>
    intro st t ht
    simp only [sendTimes, List.mem_append] at ht
    rcases ht with h1 | h2
    · by_cases hs : (stepRun e st).2.isEmpty
      · simp [hs] at h1
      · rw [if_neg hs, List.mem_singleton] at h1
        subst h1
        exact (stepRun_sent e st (by simpa [List.isEmpty_iff] using hs)).1
    · have hlb := ih (stepRun e st).1 t h2
      have hm := lastSend_mono e st
      linarith

theorem sendTimes_pairwise (es : List Env) :
    ∀ st, List.Pairwise (fun a b => a + SEND_INTERVAL ≤ b) (sendTimes st es) := by
  induction es with
  | nil =>
    intro st
    simp [sendTimes]
  | cons e es ih =>
    intro st
    simp only [sendTimes]
    by_cases hs : (stepRun e st).2.isEmpty
    · simpa [hs] using ih (stepRun e st).1
    · rw [if_neg hs, List.singleton_append]
      refine List.pairwise_cons.2 ⟨?_, ih (stepRun e st).1⟩
      intro b hb
      have hlb := sendTimes_lb es (stepRun e st).1 b hb
      have hsent := stepRun_sent e st (by simpa [List.isEmpty_iff] using hs)
      calc e.now + SEND_INTERVAL
          = (stepRun e st).1.lastSend + SEND_INTERVAL := by rw [hsent.2]
        _ ≤ b := hlb

/-- The end-to-end scenario with the position vector `[1.0, 99.0, 2.0]`. -/
def vPos3 : Vals := { vC6 with pos := [1, 99, 2] }

/-- The end-to-end scenario with the length-one position vector `[5.0]`. -/
def vPos1 : Vals := { vC6 with pos := [5] }

/-- The end-to-end scenario read too early: 0.05 s after the last publish. -/
def vEarly : Vals := { vC6 with now := 1 / 20 }

/-- The end-to-end scenario read one second later. -/
def vLater : Vals := { vC6 with now := 2 }

/-- The end-to-end scenario with a UDP send that raises. -/
def envSendFail : Env := { okEnv vC6 with sendErr := some "socket closed" }

/-! ### Claims -/

/-- C1: for every invocation of the tick handler `acUpdate`, under any
behaviour of the host accessors, of JSON serialization, and of the UDP send
(each of which may raise, as recorded in `Env`), the handler completes
normally: the host-facing computation always produces `.ok`, so no exception
propagates to the host's call site. -/
theorem acUpdate_never_raises (e : Env) (st : St) :
    ∃ r, acUpdateHost e st = Except.ok r := by
  by_cases h : e.now - st.lastSend < SEND_INTERVAL
  · exact ⟨(st, []), by simp [acUpdateHost, h]⟩
  · cases htb : tryBlock e with
    | ok p =>
      exact ⟨({ st with lastSend := e.now }, [p]), by simp [acUpdateHost, h, htb]⟩
    | error err =>
      exact ⟨({ lastSend := e.now,
                label := st.label.map fun _ => "Telemetry error: " ++ err }, []),
             by simp [acUpdateHost, h, htb]⟩

/-- C2 (counterexample): a tick on which exactly one accessor read fails —
the speed read raises while every other host call succeeds and the interval
has elapsed — sends no datagram at all, refuting the claim that the failed
field merely defaults to zero while the datagram still goes out. -/
theorem numeric_raise_drops_datagram :
    stepRun { okEnv vC6 with speed := .error "boom" } st0 =
      ({ lastSend := 1, label := some "Telemetry error: boom" }, []) := by
  with_unfolding_all decide

/-- C2 (amended): only the three name accessors are individually wrapped: if
a name accessor read fails, the failure is recovered locally, the field
defaults to the empty string, and the datagram is still sent with all other
fields populated — in particular a raising car-name accessor yields
`car = ""`.  (A raising numeric `getCarState` read instead aborts the whole
publish for that tick, as the counterexample shows; numeric fields default to
zero only for an absent, non-raising value.) -/
theorem name_accessor_raise_recovered (v : Vals) (st : St) (m : String)
    (h : SEND_INTERVAL ≤ v.now - st.lastSend) :
    acUpdateHost { okEnv v with carName := .error m } st =
        .ok ({ st with lastSend := v.now }, [{ payloadOf v with car := "" }]) ∧
    acUpdateHost { okEnv v with trackName := .error m } st =
        .ok ({ st with lastSend := v.now }, [{ payloadOf v with track := strLower "" }]) ∧
    acUpdateHost { okEnv v with driverName := .error m } st =
        .ok ({ st with lastSend := v.now }, [{ payloadOf v with driver := "" }]) :=
  ⟨acUpdateHost_ok_of _ st _ h rfl,
   acUpdateHost_ok_of _ st _ h rfl,
   acUpdateHost_ok_of _ st _ h rfl⟩

/-- Witness for the amended C2: on the concrete end-to-end scenario with the
car-name accessor raising, the datagram is still sent and `car` is empty. -/
theorem name_accessor_raise_recovered_witness :
    acUpdateHost { okEnv vC6 with carName := .error "host busy" } st0 =
      .ok ({ st0 with lastSend := vC6.now }, [{ payloadOf vC6 with car := "" }]) :=
  (name_accessor_raise_recovered vC6 st0 "host busy" (by with_unfolding_all decide)).1

/-- C3: on every tick whose elapsed time since the stored last-publish
timestamp is at least `SEND_INTERVAL`, the timestamp is updated to the
current clock reading — for an arbitrary `Env`, hence also when the reads,
serialization or send fail — so a failed attempt still makes the next one
wait the full interval. -/
theorem acUpdate_stamps (e : Env) (st : St)
    (h : SEND_INTERVAL ≤ e.now - st.lastSend) :
    (stepRun e st).1.lastSend = e.now := by
  have hn : ¬ e.now - st.lastSend < SEND_INTERVAL := not_lt.2 h
  unfold stepRun acUpdateHost
  cases htb : tryBlock e <;> simp [hn, htb]

/-- Witness for C3: a concrete tick whose UDP send raises still advances the
last-publish timestamp to the tick's clock reading. -/
theorem acUpdate_stamps_witness :
    (stepRun envSendFail st0).1.lastSend = envSendFail.now :=
  acUpdate_stamps envSendFail st0 (by with_unfolding_all decide)

/-- C4: over every sequence of tick invocations with monotone non-decreasing
clock readings, any two datagram sends occur at clock readings at least
`SEND_INTERVAL` apart: the publisher never publishes twice within one
interval. -/
theorem acUpdate_sends_spaced (st : St) (envs : List Env)
    (hmono : List.Chain' (· ≤ ·) (envs.map Env.now)) :
    List.Pairwise (fun a b => a + SEND_INTERVAL ≤ b) (sendTimes st envs) :=
  sendTimes_pairwise envs st

/-- Witness for C4: a concrete two-tick trace that publishes twice, with the
two send times a full second apart. -/
theorem acUpdate_sends_spaced_witness :
    List.Pairwise (fun a b => a + SEND_INTERVAL ≤ b)
      (sendTimes st0 [okEnv vC6, okEnv vLater]) :=
  acUpdate_sends_spaced st0 [okEnv vC6, okEnv vLater]
    (by norm_num [okEnv, vC6, vLater, List.chain'_cons, List.chain'_singleton])

/-- C5: on every tick whose elapsed time since the stored last-publish
timestamp is strictly less than `SEND_INTERVAL`, `acUpdate` returns
immediately with no side effects: no datagram is sent and the state — the
last-publish timestamp and the status label — is unchanged. -/
theorem acUpdate_skip (e : Env) (st : St)
    (h : e.now - st.lastSend < SEND_INTERVAL) :
    acUpdateHost e st = Except.ok (st, []) := by
  simp [acUpdateHost, h]

/-- Witness for C5: a concrete tick 0.05 s after the last publish leaves the
state untouched and sends nothing. -/
theorem acUpdate_skip_witness :
    acUpdateHost (okEnv vEarly) st0 = Except.ok (st0, []) :=
  acUpdate_skip (okEnv vEarly) st0 (by with_unfolding_all decide)

/-- C6: the end-to-end scenario — track `"Monza"`, driver `"Ayrton"`, car
`"F1_2020"`, speed 210.7, throttle 0.8, brake 0.0, lap 3, lastLap 91.123,
position `[10.0, 0.0, 20.0]` — publishes exactly the record with the track
lowercased, the speed truncated to 210, throttle 80, brake 0,
`lastLap = "1:31.123"`, `delta = ""`, `x = 10.0`, `y = 20.0`. -/
theorem end_to_end_monza :
    stepRun (okEnv vC6) st0 =
      ({ lastSend := 1, label := some "Sending telemetry to 127.0.0.1:41234" },
       [{ track := "monza", driver := "Ayrton", car := "F1_2020", lap := 3,
          lastLap := "1:31.123", delta := "", speed := 210, throttle := 80,
          brake := 0, x := 10, y := 20 }]) := by
  with_unfolding_all decide

/-- C7: the lap-time formatter maps `None` and non-positive inputs to `""`,
and a positive input `s` to `M:SS.mmm` with `M = ⌊s / 60⌋` and the remainder
`s - 60 * M` rendered zero-padded to width 6 with 3 decimal places; in
particular 65.25 maps to `"1:05.250"` and 125.4 to `"2:05.400"`. -/
theorem format_lap_time_spec (s : ℚ) :
    (s ≤ 0 → _format_lap_time (some s) = "") ∧
    _format_lap_time none = "" ∧
    (0 < s →
      _format_lap_time (some s) =
        toString (⌊s / 60⌋ : ℤ) ++ ":" ++ formatFixed 6 3 (s - (⌊s / 60⌋ : ℤ) * 60)) ∧
    _format_lap_time (some (65.25 : ℚ)) = "1:05.250" ∧
    _format_lap_time (some (125.4 : ℚ)) = "2:05.400" := by
  refine ⟨?_, rfl, ?_, ?_, ?_⟩
  · intro h
    simp [_format_lap_time, h]
  · intro h
    simp [_format_lap_time, not_le.2 h]
  · with_unfolding_all decide
  · with_unfolding_all decide

/-- Witness for C7: the formatter applied to the concrete inputs −5 (empty
output) and 65.25 (the general `M:SS.mmm` shape). -/
theorem format_lap_time_spec_witness :
    _format_lap_time (some (-5 : ℚ)) = "" ∧
    _format_lap_time (some (65.25 : ℚ)) =
      toString (⌊(65.25 : ℚ) / 60⌋ : ℤ) ++ ":" ++
        formatFixed 6 3 ((65.25 : ℚ) - (⌊(65.25 : ℚ) / 60⌋ : ℤ) * 60) :=
  ⟨(format_lap_time_spec (-5)).1 (by norm_num),
   (format_lap_time_spec (65.25)).2.2.1 (by norm_num)⟩

/-- C8: the throttle and brake fields of every published record are the
integer percentage `int((v or 0) * 100)` of the accessor value, with an
absent value treated as 0: input 0.5 yields 50, `None` yields 0, and 1.0
yields 100. -/
theorem throttle_brake_pct (v : Vals) (st : St)
    (h : SEND_INTERVAL ≤ v.now - st.lastSend) :
    ((stepRun (okEnv v) st).2.map Payload.throttle = [pct v.throttle] ∧
     (stepRun (okEnv v) st).2.map Payload.brake = [pct v.brake]) ∧
    (∀ t : ℚ, pct (some t) = pyInt (t * 100)) ∧
    (pct (some (0.5 : ℚ)) = 50 ∧ pct none = 0 ∧ pct (some (1 : ℚ)) = 100) := by
  have hs := stepRun_eq (okEnv v) st _ (publish_ok v st h)
  refine ⟨⟨?_, ?_⟩, ?_, ?_, ?_, ?_⟩
  · simp [hs, payloadOf]
  · simp [hs, payloadOf]
  · intro t
    by_cases ht : t = 0 <;> simp [pct, pyOrZero, ht]
  · with_unfolding_all decide
  · with_unfolding_all decide
  · with_unfolding_all decide

/-- Witness for C8: the concrete end-to-end publish carries the percentage
of its throttle accessor value. -/
theorem throttle_brake_pct_witness :
    (stepRun (okEnv vC6) st0).2.map Payload.throttle = [pct vC6.throttle] :=
  (throttle_brake_pct vC6 st0 (by with_unfolding_all decide)).1.1

/-- C9: the published record's `x` is the position vector's first component
(0 if the vector is empty) and `y` its third (0 if the vector has fewer than
three components); in particular `[1.0, 99.0, 2.0]` publishes with
`x = 1.0, y = 2.0` and `[5.0]` with `x = 5.0, y = 0`. -/
theorem position_projection (v : Vals) (st : St)
    (h : SEND_INTERVAL ≤ v.now - st.lastSend) :
    ((stepRun (okEnv v) st).2.map Payload.x =
        [if v.pos.length > 0 then v.pos.getD 0 0 else 0] ∧
     (stepRun (okEnv v) st).2.map Payload.y =
        [if v.pos.length > 2 then v.pos.getD 2 0 else 0]) ∧
    ((stepRun (okEnv vPos3) st0).2.map (fun p => (p.x, p.y)) = [((1 : ℚ), (2 : ℚ))] ∧
     (stepRun (okEnv vPos1) st0).2.map (fun p => (p.x, p.y)) = [((5 : ℚ), (0 : ℚ))]) := by
  have hs := stepRun_eq (okEnv v) st _ (publish_ok v st h)
  refine ⟨⟨?_, ?_⟩, ?_, ?_⟩
  · simp [hs, payloadOf]
  · simp [hs, payloadOf]
  · with_unfolding_all decide
  · with_unfolding_all decide

/-- Witness for C9: the concrete end-to-end publish projects its position
vector `[10, 0, 20]` onto `x` as stated. -/
theorem position_projection_witness :
    (stepRun (okEnv vC6) st0).2.map Payload.x =
      [if vC6.pos.length > 0 then vC6.pos.getD 0 0 else 0] :=
  (position_projection vC6 st0 (by with_unfolding_all decide)).1.1

/-- C10: there is a positive lap time strictly below one minute that the
formatter renders as `"0:60.000"`: minutes are floored while the remainder is
rounded to three decimals independently, so the seconds field can reach
60.000 without carrying into the minutes. -/
theorem lap_time_sixty_no_carry :
    ∃ s : ℚ, 0 < s ∧ s < 60 ∧ _format_lap_time (some s) = "0:60.000" := by
  refine ⟨599999 / 10000, by norm_num, by norm_num, ?_⟩
  with_unfolding_all decide

end TelemetryRelay
